import Mathlib

/-!
Shallow embedding of `projects/marketplace/products-api/src/server.ts`
(Jviejo/fabric-fullstack): the identity-scoped session layer of the
products API.  The external collaborators (the Fabric CA, the ledger
network) are modelled as oracles whose operations return `Except`,
mirroring succeeding / throwing promises in the source; handler bodies
are translated match-for-branch from the TypeScript.  An `Except.error`
escaping a handler models an exception the handler does not catch.
-/

set_option autoImplicit false

namespace ProductsApi

/-- An identity as built by `newIdentity` in `server.ts`: a member service
provider id together with the certificate bytes used as credentials. -/
structure Identity where
  mspId : String
  credentials : String
  deriving DecidableEq, Repr

/-- A signer as built by `newSigner` in `server.ts`: the source calls
`crypto.createPrivateKey(privateKeyPem)` and wraps it with
`signers.newPrivateKeySigner`; the signer is a pure function of the
private-key PEM, which is what we keep. -/
structure Signer where
  privateKeyPem : String
  deriving DecidableEq, Repr

/-- `newIdentity(mspId, credentials)` from `server.ts` (lines 49-52). -/
def newIdentity (mspId : String) (credentials : String) : Identity :=
  { mspId := mspId, credentials := credentials }

/-- `newSigner(privateKeyPem)` from `server.ts` (lines 54-57). -/
def newSigner (privateKeyPem : String) : Signer :=
  { privateKeyPem := privateKeyPem }

/-- The connect options record built by `newConnectOptions` (lines 23-47):
the shared gRPC client (modelled by an id), the identity, the signer and
the four per-operation deadline closures.  Each closure in the source is
`() => ({ deadline: Date.now() + k })`; we model it as the function from
the current time to the deadline. -/
structure ConnectOptions where
  client : Nat
  identity : Identity
  signer : Signer
  evaluateOptions : Nat → Nat
  endorseOptions : Nat → Nat
  submitOptions : Nat → Nat
  commitStatusOptions : Nat → Nat

/-- `newConnectOptions(client, mspId, credentials, privateKeyPem)` from
`server.ts` lines 23-47, with the literal deadline offsets 5000, 15000,
5000 and 60000 milliseconds. -/
def newConnectOptions (client : Nat) (mspId : String) (credentials : String)
    (privateKeyPem : String) : ConnectOptions :=
  { client := client
    identity := newIdentity mspId credentials
    signer := newSigner privateKeyPem
    evaluateOptions := fun now => now + 5000
    endorseOptions := fun now => now + 15000
    submitOptions := fun now => now + 5000
    commitStatusOptions := fun now => now + 60000 }

/-- The contract handle obtained by `connect(options)` then
`getNetwork(channelName)` then `getContract(chaincodeName)`: it is fully
determined by the connect options plus the two static names. -/
structure ContractHandle where
  options : ConnectOptions
  channelName : String
  chaincodeName : String

/-- `connect(connectOptions).getNetwork(channelName).getContract(chaincodeName)`
as performed at lines 117-119 and 198-200 of `server.ts`. -/
def getContract (options : ConnectOptions) (channelName chaincodeName : String) :
    ContractHandle :=
  { options := options, channelName := channelName, chaincodeName := chaincodeName }

/-- The default contract handle built in `main` (lines 110-119) from the
admin user certificate and key read out of the network config. -/
def defaultContract (grpcConn : Nat) (mspID userCertificate userKey : String)
    (channelName chaincodeName : String) : ContractHandle :=
  getContract (newConnectOptions grpcConn mspID userCertificate userKey)
    channelName chaincodeName

/-- The enrollment result returned by `fabricCAServices.enroll`: the source
uses `r.certificate` and `r.key.toBytes()`, so we keep the certificate PEM
and the private-key PEM. -/
structure EnrollResult where
  certificate : String
  key : String
  deriving DecidableEq, Repr

/-- An identity record as returned by `identityService.getOne`. -/
structure CAIdentity where
  id : String
  deriving DecidableEq, Repr

/-- The registration request object literal built in the `/signup` handler
(lines 158-165 of `server.ts`). -/
structure RegisterRequest where
  enrollmentID : String
  enrollmentSecret : String
  affiliation : String
  role : String
  maxEnrollments : Int
  deriving DecidableEq, Repr

/-- Oracle for the external Fabric CA: `identityService.getOne`,
`fabricCAServices.register` and `fabricCAServices.enroll`.  `Except.error`
models a rejected promise (e.g. identity not found, wrong password). -/
structure FabricCAServices where
  getOne : String → Except String CAIdentity
  register : RegisterRequest → Except String String
  enroll : String → String → Except String EnrollResult

/-- The in-memory identity directory `const users = {}` (line 144):
a username-keyed association list of enrollment results. -/
abbrev Directory := List (String × EnrollResult)

/-- Property lookup `users[user]` on the identity directory. -/
def lookupUser : Directory → String → Option EnrollResult
  | [], _ => none
  | (k, v) :: rest, u => if k = u then some v else lookupUser rest u

/-- Property assignment `users[username] = r` (line 183): replaces the
entry for the key in place, or appends a fresh entry. -/
def setUser : Directory → String → EnrollResult → Directory
  | [], u, r => [(u, r)]
  | (k, v) :: rest, u, r =>
    if k = u then (u, r) :: rest else (k, v) :: setUser rest u r

/-- An HTTP response: status (200 unless `res.status` was called) and the
body passed to `res.send`. -/
structure Response where
  status : Nat
  body : String
  deriving DecidableEq, Repr

/-- The register request literal of the `/signup` handler: enrollment id
and secret from the request body, affiliation `""`, role `"client"`,
max enrollments `-1`. -/
def signupRequest (username password : String) : RegisterRequest :=
  { enrollmentID := username
    enrollmentSecret := password
    affiliation := ""
    role := "client"
    maxEnrollments := -1 }

/-- The `POST /signup` handler (lines 145-167).  `getOne` is wrapped in a
try/catch whose catch only logs, so a lookup failure leaves
`identityFound` null; the `register` call is NOT inside any try/catch, so
its failure escapes the handler (`Except.error`).  The handler closes over
`users` but never reads it. -/
def signupHandler (ca : FabricCAServices) (users : Directory)
    (username password : String) : Except String Response :=
  match ca.getOne username with
  | .ok _ => .ok { status := 400, body := "Username already taken" }
  | .error _ =>
    match ca.register (signupRequest username password) with
    | .ok _ => .ok { status := 200, body := "OK" }
    | .error e => .error e

/-- The `POST /login` handler (lines 168-185).  A `getOne` failure is
caught and answered with 400 "Username not found" before `enroll` runs;
on a successful lookup the `enroll` call is NOT inside any try/catch, so
its failure escapes the handler; on success the result is stored with
`users[username] = r` and the handler answers 200 "OK". -/
def loginHandler (ca : FabricCAServices) (users : Directory)
    (username password : String) : Except String (Response × Directory) :=
  match ca.getOne username with
  | .error _ => .ok ({ status := 400, body := "Username not found" }, users)
  | .ok _ =>
    match ca.enroll username password with
    | .ok r => .ok ({ status := 200, body := "OK" }, setUser users username r)
    | .error e => .error e

/-- The session resolver middleware (lines 186-208).  It first attaches the
default contract, then, when the `x-user` header is present, truthy and
found in the directory, rebuilds connect options from that user's enrolled
certificate and key and attaches the resulting contract instead.  The
result is the contract handle attached to the request. -/
def sessionMiddleware (grpcConn : Nat) (mspID channelName chaincodeName : String)
    (defaultC : ContractHandle) (users : Directory) (xUser : Option String) :
    ContractHandle :=
  match xUser with
  | none => defaultC
  | some user =>
    if user = "" then defaultC
    else
      match lookupUser users user with
      | none => defaultC
      | some r =>
        getContract (newConnectOptions grpcConn mspID r.certificate r.key)
          channelName chaincodeName

/-- An error object as thrown by the gateway: `message` always present,
`details` optionally present (ledger detail text). -/
structure JsError where
  message : String
  details : Option String
  deriving DecidableEq, Repr

/-- The error-to-body mapping `e.details && e.details.length ? e.details :
e.message` used by `/evaluate` and `/submit` (lines 229 and 241). -/
def errBody (e : JsError) : String :=
  match e.details with
  | some d => if d.length != 0 then d else e.message
  | none => e.message

/-- Oracle for a contract handle's transaction operations against the
external ledger: `evaluateTransaction` and `submitTransaction`, each
taking the function name and argument list and either resolving to the
response payload or rejecting. -/
structure Contract where
  evaluateTransaction : String → List String → Except JsError String
  submitTransaction : String → List String → Except JsError String

/-- `const tokenName = "CDC"` (line 127). -/
def tokenName : String := "CDC"

/-- `const tokenSymbol = "$"` (line 128). -/
def tokenSymbol : String := "$"

/-- The startup Initialize attempt (lines 129-134): the submit is wrapped
in a try/catch whose catch only logs "Already initialized", so startup
continues either way; the boolean records whether the submit succeeded and
an `Except.error` would model an uncaught exception, which never occurs. -/
def startupInitialize (contract : Contract) : Except String Bool :=
  match contract.submitTransaction "Initialize" [tokenName, tokenSymbol] with
  | .ok _ => .ok true
  | .error _ => .ok false

/-- The `POST /init` handler (lines 135-143): same guarded submit, then
unconditionally `res.send("Initialized")` with default status 200. -/
def initHandler (contract : Contract) : Response :=
  match contract.submitTransaction "Initialize" [tokenName, tokenSymbol] with
  | .ok _ => { status := 200, body := "Initialized" }
  | .error _ => { status := 200, body := "Initialized" }

/-- The JSON body of `/evaluate` and `/submit`: a function name and an
optional argument array (`req.body.args` may be absent or falsy, in which
case the source falls back to `[]` via `req.body.args || []`). -/
structure TxBody where
  fcn : String
  args : Option (List String)
  deriving DecidableEq, Repr

/-- The `POST /evaluate` handler (lines 221-231): evaluate with
`...(req.body.args || [])`, answer 200 with the payload, or 400 with
`errBody` on failure. -/
def evaluateHandler (contract : Contract) (body : TxBody) : Response :=
  match contract.evaluateTransaction body.fcn (body.args.getD []) with
  | .ok s => { status := 200, body := s }
  | .error e => { status := 400, body := errBody e }

/-- The `POST /submit` handler (lines 233-243): submit with
`...(req.body.args || [])`, answer 200 with the payload, or 400 with
`errBody` on failure. -/
def submitHandler (contract : Contract) (body : TxBody) : Response :=
  match contract.submitTransaction body.fcn (body.args.getD []) with
  | .ok s => { status := 200, body := s }
  | .error e => { status := 400, body := errBody e }

/-- A contract handle is bound to one user's material when its identity
credentials are that user's certificate and its signer is derived from
that same user's private key. -/
def handleBoundTo (h : ContractHandle) (cert key : String) : Prop :=
  h.options.identity.credentials = cert ∧ h.options.signer = newSigner key

/-- The key list of a directory. -/
def keys (d : Directory) : List String := d.map Prod.fst

@[simp] theorem keys_nil : keys [] = [] := rfl

@[simp] theorem keys_cons (k : String) (v : EnrollResult) (rest : Directory) :
    keys ((k, v) :: rest) = k :: keys rest := rfl

theorem lookupUser_setUser_self (d : Directory) (u : String) (r : EnrollResult) :
    lookupUser (setUser d u r) u = some r := by
  induction d with
  | nil => simp [setUser, lookupUser]
  | cons p rest ih =>
    obtain ⟨k, v⟩ := p
    by_cases hk : k = u
    · simp [setUser, hk, lookupUser]
    · simp [setUser, hk, lookupUser, ih]

theorem mem_keys_setUser (d : Directory) (u a : String) (r : EnrollResult)
    (ha : a ∈ keys (setUser d u r)) : a ∈ keys d ∨ a = u := by
  induction d with
  | nil =>
    simp [setUser] at ha
    exact Or.inr ha
  | cons p rest ih =>
    obtain ⟨k, v⟩ := p
    by_cases hk : k = u
    · subst hk
      simp [setUser] at ha
      rcases ha with h | h
      · exact Or.inr h
      · exact Or.inl (by simp [h])
    · simp [setUser, hk] at ha
      rcases ha with h | h
      · exact Or.inl (by simp [h])
      · rcases ih h with h2 | h2
        · exact Or.inl (by simp; exact Or.inr h2)
        · exact Or.inr h2

theorem nodup_keys_setUser (d : Directory) (u : String) (r : EnrollResult)
    (hd : (keys d).Nodup) : (keys (setUser d u r)).Nodup := by
  induction d with
  | nil => simp [setUser]
  | cons p rest ih =>
    obtain ⟨k, v⟩ := p
    rw [keys_cons, List.nodup_cons] at hd
    by_cases hk : k = u
    · subst hk
      simpa [setUser] using hd
    · rw [show setUser ((k, v) :: rest) u r = (k, v) :: setUser rest u r by
        simp [setUser, hk], keys_cons, List.nodup_cons]
      refine ⟨fun hmem => ?_, ih hd.2⟩
      rcases mem_keys_setUser rest u k r hmem with h | h
      · exact hd.1 h
      · exact hk h

/-- C1: after a successful `/login` for user U (so U is stored in the
identity directory), a request carrying header `x-user: U` is resolved by
the session middleware to a contract handle whose connect options carry
U's enrolled certificate as the identity credentials and U's enrolled
private key as the signer, and its signer differs from the default
identity's signer whenever the key material differs. -/
theorem C1_session_uses_login_material
    (ca : FabricCAServices) (users : Directory) (U p : String)
    (resp : Response) (users' : Directory) (grpcConn : Nat)
    (mspID aCert aKey channelName chaincodeName : String)
    (hlogin : loginHandler ca users U p = .ok (resp, users'))
    (h200 : resp.status = 200) (hU : U ≠ "") :
    ∃ r : EnrollResult,
      ca.enroll U p = .ok r ∧
      handleBoundTo
        (sessionMiddleware grpcConn mspID channelName chaincodeName
          (defaultContract grpcConn mspID aCert aKey channelName chaincodeName)
          users' (some U)) r.certificate r.key ∧
      (r.key ≠ aKey →
        (sessionMiddleware grpcConn mspID channelName chaincodeName
            (defaultContract grpcConn mspID aCert aKey channelName chaincodeName)
            users' (some U)).options.signer ≠
          (defaultContract grpcConn mspID aCert aKey channelName
            chaincodeName).options.signer) := by
  unfold loginHandler at hlogin
  cases hg : ca.getOne U with
  | error e =>
    rw [hg] at hlogin
    simp only [Except.ok.injEq, Prod.mk.injEq] at hlogin
    rw [← hlogin.1] at h200
    simp at h200
  | ok idr =>
    rw [hg] at hlogin
    cases he : ca.enroll U p with
    | error e =>
      rw [he] at hlogin
      simp at hlogin
    | ok r =>
      rw [he] at hlogin
      simp only [Except.ok.injEq, Prod.mk.injEq] at hlogin
      obtain ⟨hresp, husers⟩ := hlogin
      subst husers
      refine ⟨r, rfl, ?_, ?_⟩
      · simp [sessionMiddleware, hU, lookupUser_setUser_self, getContract,
          newConnectOptions, newIdentity, newSigner, handleBoundTo]
      · intro hkey hcontra
        simp only [sessionMiddleware, hU, if_false,
          lookupUser_setUser_self, getContract, defaultContract,
          newConnectOptions, newIdentity, newSigner,
          Signer.mk.injEq] at hcontra
        exact hkey hcontra

/-- C2: a request with no `x-user` header, or whose `x-user` value is
empty or not stored in the identity directory, is resolved by the session
middleware to the default contract handle; resolution is total, so the
request always reaches its handler with a contract attached. -/
theorem C2_default_fallback (grpcConn : Nat)
    (mspID channelName chaincodeName : String) (defaultC : ContractHandle)
    (users : Directory) (u : String)
    (h : u = "" ∨ lookupUser users u = none) :
    sessionMiddleware grpcConn mspID channelName chaincodeName defaultC
      users none = defaultC ∧
    sessionMiddleware grpcConn mspID channelName chaincodeName defaultC
      users (some u) = defaultC := by
  refine ⟨rfl, ?_⟩
  rcases h with h | h
  · simp [sessionMiddleware, h]
  · by_cases hu : u = ""
    · simp [sessionMiddleware, hu]
    · simp [sessionMiddleware, hu, h]

/-- C3: `/signup` answers 400 "Username already taken" (and never 200)
when the CA lookup reports an existing identity; when the lookup fails
(identity absent) and registration succeeds it answers 200 "OK"; and the
response does not depend on the local identity directory at all. -/
theorem C3_signup_taken_check (ca : FabricCAServices) (users : Directory)
    (u p : String) :
    (∀ idr : CAIdentity, ca.getOne u = .ok idr →
      signupHandler ca users u p =
        .ok { status := 400, body := "Username already taken" } ∧
      ∀ b : String, signupHandler ca users u p ≠
        .ok { status := 200, body := b }) ∧
    (∀ (e s : String), ca.getOne u = .error e →
      ca.register (signupRequest u p) = .ok s →
      signupHandler ca users u p = .ok { status := 200, body := "OK" }) ∧
    (∀ users2 : Directory,
      signupHandler ca users u p = signupHandler ca users2 u p) := by
  refine ⟨fun idr hidr => ?_, fun e s he hs => ?_, fun users2 => rfl⟩
  · constructor
    · simp [signupHandler, hidr]
    · intro b hb
      simp [signupHandler, hidr] at hb
  · simp [signupHandler, he, hs]

/-- C4: `/login` for a username whose CA lookup fails answers 400
"Username not found" and leaves the identity directory unchanged. -/
theorem C4_login_unknown_user (ca : FabricCAServices) (users : Directory)
    (u p e : String) (h : ca.getOne u = .error e) :
    loginHandler ca users u p =
      .ok ({ status := 400, body := "Username not found" }, users) := by
  simp [loginHandler, h]

/-- C5: on every successful `/login` the enrollment result returned by the
CA is stored under the username (overwriting any previous entry), the
response is 200 "OK", the stored entry is found by lookup, and storing
preserves the no-duplicate-keys invariant of the directory. -/
theorem C5_login_stores_overwrites (ca : FabricCAServices)
    (users : Directory) (u p : String) (resp : Response) (users' : Directory)
    (h : loginHandler ca users u p = .ok (resp, users'))
    (h200 : resp.status = 200) :
    ∃ r : EnrollResult,
      ca.enroll u p = .ok r ∧
      users' = setUser users u r ∧
      lookupUser users' u = some r ∧
      resp = { status := 200, body := "OK" } ∧
      ((keys users).Nodup → (keys users').Nodup) := by
  unfold loginHandler at h
  cases hg : ca.getOne u with
  | error e =>
    rw [hg] at h
    simp only [Except.ok.injEq, Prod.mk.injEq] at h
    rw [← h.1] at h200
    simp at h200
  | ok idr =>
    rw [hg] at h
    cases he : ca.enroll u p with
    | error e =>
      rw [he] at h
      simp at h
    | ok r =>
      rw [he] at h
      simp only [Except.ok.injEq, Prod.mk.injEq] at h
      obtain ⟨hresp, husers⟩ := h
      subst husers
      exact ⟨r, rfl, rfl, lookupUser_setUser_self users u r, hresp.symm,
        nodup_keys_setUser users u r⟩

/-- C6: the connect options built by `newConnectOptions` carry, for every
identity, exactly the deadlines now+5000ms for evaluate, now+15000ms for
endorse, now+5000ms for submit and now+60000ms for commit status, and the
deadline functions are identical whatever user material is passed. -/
theorem C6_fixed_deadlines (client : Nat)
    (mspId credentials privateKeyPem : String) (now : Nat) :
    ((newConnectOptions client mspId credentials privateKeyPem).evaluateOptions
        now = now + 5000) ∧
    ((newConnectOptions client mspId credentials privateKeyPem).endorseOptions
        now = now + 15000) ∧
    ((newConnectOptions client mspId credentials privateKeyPem).submitOptions
        now = now + 5000) ∧
    ((newConnectOptions client mspId credentials
        privateKeyPem).commitStatusOptions now = now + 60000) ∧
    ∀ (client2 : Nat) (mspId2 credentials2 privateKeyPem2 : String),
      (newConnectOptions client mspId credentials
          privateKeyPem).evaluateOptions =
        (newConnectOptions client2 mspId2 credentials2
          privateKeyPem2).evaluateOptions ∧
      (newConnectOptions client mspId credentials
          privateKeyPem).endorseOptions =
        (newConnectOptions client2 mspId2 credentials2
          privateKeyPem2).endorseOptions ∧
      (newConnectOptions client mspId credentials
          privateKeyPem).submitOptions =
        (newConnectOptions client2 mspId2 credentials2
          privateKeyPem2).submitOptions ∧
      (newConnectOptions client mspId credentials
          privateKeyPem).commitStatusOptions =
        (newConnectOptions client2 mspId2 credentials2
          privateKeyPem2).commitStatusOptions :=
  ⟨rfl, rfl, rfl, rfl, fun _ _ _ _ => ⟨rfl, rfl, rfl, rfl⟩⟩

/-- C7: `POST /init` always answers 200 "Initialized" whether the
Initialize submit succeeds or throws, and the startup Initialize attempt
always completes normally (the failure is swallowed, never surfaced). -/
theorem C7_init_always_ok (contract : Contract) :
    initHandler contract = { status := 200, body := "Initialized" } ∧
    (startupInitialize contract = .ok true ∨
     startupInitialize contract = .ok false) := by
  constructor
  · unfold initHandler
    cases contract.submitTransaction "Initialize" [tokenName, tokenSymbol] <;> rfl
  · unfold startupInitialize
    cases contract.submitTransaction "Initialize" [tokenName, tokenSymbol]
    · exact Or.inr rfl
    · exact Or.inl rfl

/-- C9: every contract handle the program constructs is bound to a single
user's material: the default handle carries the admin certificate and the
admin key, and the middleware either attaches that default handle or a
handle bound to the certificate and key of the one directory entry it
looked up. -/
theorem C9_no_mixed_material (grpcConn : Nat)
    (mspID aCert aKey channelName chaincodeName : String)
    (users : Directory) (xUser : Option String) :
    handleBoundTo
      (defaultContract grpcConn mspID aCert aKey channelName chaincodeName)
      aCert aKey ∧
    (sessionMiddleware grpcConn mspID channelName chaincodeName
        (defaultContract grpcConn mspID aCert aKey channelName chaincodeName)
        users xUser =
      defaultContract grpcConn mspID aCert aKey channelName chaincodeName ∨
     ∃ (u : String) (r : EnrollResult), xUser = some u ∧
       lookupUser users u = some r ∧
       handleBoundTo
         (sessionMiddleware grpcConn mspID channelName chaincodeName
           (defaultContract grpcConn mspID aCert aKey channelName
             chaincodeName) users xUser) r.certificate r.key) := by
  refine ⟨⟨rfl, rfl⟩, ?_⟩
  cases xUser with
  | none => exact Or.inl rfl
  | some u =>
    by_cases hu : u = ""
    · exact Or.inl (by simp [sessionMiddleware, hu])
    · cases hr : lookupUser users u with
      | none => exact Or.inl (by simp [sessionMiddleware, hu, hr])
      | some r =>
        refine Or.inr ⟨u, r, rfl, hr, ?_⟩
        simp [sessionMiddleware, hu, hr, getContract, newConnectOptions,
          newIdentity, newSigner, handleBoundTo]

/-- C10: `/evaluate` and `/submit` treat a missing (or falsy) `args` field
exactly as the empty argument list: the response with `args` absent equals
the response with `args = []`, and when the transaction at the empty
argument list succeeds the handler answers 200 with its payload. -/
theorem C10_missing_args_empty (contract : Contract) (fcn : String) :
    (evaluateHandler contract { fcn := fcn, args := none } =
      evaluateHandler contract { fcn := fcn, args := some [] }) ∧
    (submitHandler contract { fcn := fcn, args := none } =
      submitHandler contract { fcn := fcn, args := some [] }) ∧
    (∀ s : String, contract.evaluateTransaction fcn [] = .ok s →
      evaluateHandler contract { fcn := fcn, args := none } =
        { status := 200, body := s }) ∧
    (∀ s : String, contract.submitTransaction fcn [] = .ok s →
      submitHandler contract { fcn := fcn, args := none } =
        { status := 200, body := s }) := by
  refine ⟨rfl, rfl, fun s hs => ?_, fun s hs => ?_⟩
  · simp [evaluateHandler, hs]
  · simp [submitHandler, hs]

/-- C8 (amended): errors from the CA identity lookup (`getOne`) are the
only CA errors caught inside the handlers: a failed lookup lets `/signup`
proceed to registration and makes `/login` answer 400 "Username not
found"; but a failing `register` call in `/signup` and a failing `enroll`
call in `/login` are not caught and escape the handler as uncaught
exceptions instead of becoming 400 responses. -/
theorem C8_lookup_errors_only_caught (ca : FabricCAServices)
    (users : Directory) (u p : String) :
    (∀ e : String, ca.getOne u = .error e →
      (∀ s : String, ca.register (signupRequest u p) = .ok s →
        signupHandler ca users u p = .ok { status := 200, body := "OK" }) ∧
      (∀ f : String, ca.register (signupRequest u p) = .error f →
        signupHandler ca users u p = .error f) ∧
      loginHandler ca users u p =
        .ok ({ status := 400, body := "Username not found" }, users)) ∧
    (∀ idr : CAIdentity, ca.getOne u = .ok idr →
      ∀ f : String, ca.enroll u p = .error f →
        loginHandler ca users u p = .error f) := by
  refine ⟨fun e he => ⟨fun s hs => ?_, fun f hf => ?_, ?_⟩,
    fun idr hidr f hf => ?_⟩
  · simp [signupHandler, he, hs]
  · simp [signupHandler, he, hf]
  · simp [loginHandler, he]
  · simp [loginHandler, hidr, hf]

/-- A fixed enrollment result used for concrete runs. -/
def rAlice : EnrollResult := { certificate := "certAlice", key := "keyAlice" }

/-- A CA oracle whose lookup always succeeds and whose enroll returns
`rAlice`: exercises the known-user paths. -/
def caKnown : FabricCAServices :=
  { getOne := fun _ => .ok { id := "alice" }
    register := fun _ => .ok "secret"
    enroll := fun _ _ => .ok rAlice }

/-- A CA oracle whose lookup always fails and whose register and enroll
succeed: exercises the fresh-username paths. -/
def caFresh : FabricCAServices :=
  { getOne := fun _ => .error "not found"
    register := fun _ => .ok "secret"
    enroll := fun _ _ => .ok rAlice }

/-- A CA oracle whose lookup fails and whose register call also fails:
exercises the uncaught-exception path of `/signup`. -/
def caDown : FabricCAServices :=
  { getOne := fun _ => .error "not found"
    register := fun _ => .error "register boom"
    enroll := fun _ _ => .error "enroll boom" }

/-- A CA oracle whose lookup succeeds but whose enroll fails (for example
a wrong password): exercises the uncaught-exception path of `/login`. -/
def caWrongPassword : FabricCAServices :=
  { getOne := fun _ => .ok { id := "alice" }
    register := fun _ => .ok "secret"
    enroll := fun _ _ => .error "wrong password" }

/-- A concrete default contract handle. -/
def dHandle : ContractHandle :=
  defaultContract 0 "Org1MSP" "adminCert" "adminKey" "mychannel" "products"

/-- A ledger contract oracle whose transactions succeed. -/
def okContract : Contract :=
  { evaluateTransaction := fun _ _ => .ok "pong"
    submitTransaction := fun _ _ => .ok "done" }

/-- C8 counterexample: with the lookup reporting the username free and the
CA register call failing, the `/signup` handler ends in an uncaught
exception (`Except.error`) instead of answering with a 400 response. -/
theorem C8_counterexample :
    signupHandler caDown [] "alice" "pw" = .error "register boom" := rfl

/-- C8 witness: at concrete oracles, a lookup failure alone is absorbed
(signup answers 200 when register succeeds), while a failing enroll in
`/login` escapes uncaught. -/
theorem C8_witness :
    signupHandler caFresh [] "bob" "pw" =
      .ok { status := 200, body := "OK" } ∧
    loginHandler caWrongPassword [] "alice" "bad" =
      .error "wrong password" :=
  ⟨((C8_lookup_errors_only_caught caFresh [] "bob" "pw").1 "not found"
      rfl).1 "secret" rfl,
   (C8_lookup_errors_only_caught caWrongPassword [] "alice" "bad").2
     { id := "alice" } rfl "wrong password" rfl⟩

/-- C1 witness: a concrete successful login for "alice" followed by a
request with header `x-user: alice`. -/
theorem C1_witness :
    ∃ r : EnrollResult,
      caKnown.enroll "alice" "pw" = .ok r ∧
      handleBoundTo
        (sessionMiddleware 0 "Org1MSP" "mychannel" "products"
          (defaultContract 0 "Org1MSP" "adminCert" "adminKey" "mychannel"
            "products")
          (setUser [] "alice" rAlice) (some "alice")) r.certificate r.key ∧
      (r.key ≠ "adminKey" →
        (sessionMiddleware 0 "Org1MSP" "mychannel" "products"
            (defaultContract 0 "Org1MSP" "adminCert" "adminKey" "mychannel"
              "products")
            (setUser [] "alice" rAlice) (some "alice")).options.signer ≠
          (defaultContract 0 "Org1MSP" "adminCert" "adminKey" "mychannel"
            "products").options.signer) :=
  C1_session_uses_login_material caKnown [] "alice" "pw"
    { status := 200, body := "OK" } (setUser [] "alice" rAlice)
    0 "Org1MSP" "adminCert" "adminKey" "mychannel" "products"
    rfl rfl (by decide)

/-- C2 witness: a request with no header and one with the unknown user
"bob" both resolve to the concrete default handle. -/
theorem C2_witness :
    sessionMiddleware 0 "Org1MSP" "mychannel" "products" dHandle []
      none = dHandle ∧
    sessionMiddleware 0 "Org1MSP" "mychannel" "products" dHandle []
      (some "bob") = dHandle :=
  C2_default_fallback 0 "Org1MSP" "mychannel" "products" dHandle [] "bob"
    (Or.inr rfl)

/-- C3 witness: a taken username answers 400, a fresh one answers 200. -/
theorem C3_witness :
    signupHandler caKnown [] "alice" "pw" =
      .ok { status := 400, body := "Username already taken" } ∧
    signupHandler caFresh [] "bob" "pw" =
      .ok { status := 200, body := "OK" } :=
  ⟨((C3_signup_taken_check caKnown [] "alice" "pw").1 { id := "alice" }
      rfl).1,
   (C3_signup_taken_check caFresh [] "bob" "pw").2.1 "not found" "secret"
     rfl rfl⟩

/-- C4 witness: a login for the unknown "carol" answers 400 "Username not
found" and leaves the empty directory empty. -/
theorem C4_witness :
    loginHandler caFresh [] "carol" "pw" =
      .ok ({ status := 400, body := "Username not found" }, []) :=
  C4_login_unknown_user caFresh [] "carol" "pw" "not found" rfl

/-- C5 witness: a concrete successful login stores the enrollment result
under "alice". -/
theorem C5_witness :
    ∃ r : EnrollResult,
      caKnown.enroll "alice" "pw" = .ok r ∧
      setUser [] "alice" rAlice = setUser [] "alice" r ∧
      lookupUser (setUser [] "alice" rAlice) "alice" = some r ∧
      ({ status := 200, body := "OK" } : Response) =
        { status := 200, body := "OK" } ∧
      ((keys []).Nodup → (keys (setUser [] "alice" rAlice)).Nodup) :=
  C5_login_stores_overwrites caKnown [] "alice" "pw"
    { status := 200, body := "OK" } (setUser [] "alice" rAlice) rfl rfl

/-- C10 witness: with a succeeding ledger oracle, a body without `args`
answers 200 with the payload of the call at the empty argument list. -/
theorem C10_witness :
    evaluateHandler okContract { fcn := "Ping", args := none } =
      { status := 200, body := "pong" } ∧
    submitHandler okContract { fcn := "Ping", args := none } =
      { status := 200, body := "done" } :=
  ⟨(C10_missing_args_empty okContract "Ping").2.2.1 "pong" rfl,
   (C10_missing_args_empty okContract "Ping").2.2.2 "done" rfl⟩

end ProductsApi
